import Mathlib

/-!
# Verification of `check-hw-compat.py`

A shallow embedding of the core matching-and-status-resolution engine of
the hardware-compatibility checker `src/check-hw-compat.py`, together with
theorems settling the specification claims about it.

Conventions of the embedding:
* Python strings are Lean `String`s; string *manipulation* (splitting,
  character replacement, glob matching) is done on `String.data`
  (`List Char`) so that every definition evaluates by `decide`/`rfl`.
* Python `dict` comprehensions are represented by the association list of
  the pairs produced in iteration order; lookup (`dict.get`) takes the
  *last* binding of a key, which is exactly Python's overwrite semantics.
* Python `set`s are represented by lists used only through membership,
  except where the program iterates over a set: there the iteration order
  is an explicit parameter, since Python does not determine it from the
  set's contents (string hashing is salted per process).
* External collaborators (lspci, sysfs, modprobe, lsmod, libkmod) are
  inputs: device inventories arrive as values, the alias resolver and the
  kmod oracle as functions.
-/

namespace HwCompat

/-- `class Status(Enum)` of `check-hw-compat.py` (lines 67-70). -/
inductive Status where
  | ok
  | removed
  | unmaintained
deriving DecidableEq, Repr

/-- Python's `Status.<member>.name`, as used for the report records. -/
def Status.name : Status → String
  | .ok => "ok"
  | .removed => "removed"
  | .unmaintained => "unmaintained"

/-- `normalize_module_name` (line 73-74): `name.replace('-', '_')`.
Since `'-'` and `'_'` are single characters this is a character-wise map. -/
def normalize_module_name (name : String) : String :=
  String.mk (name.data.map (fun c => if c = '-' then '_' else c))

/-- One entry of the compatibility database
(`device_driver_deprecation_data.json`, field shape per the loaders at
lines 209-225 and 341-343).  `available_in_rhel` / `maintained_in_rhel`
are integer arrays; the target version is an `Int` (CLI `type=int`). -/
structure CompatEntry where
  device_type : String
  device_id : String
  driver_name : String
  available_in_rhel : List Int
  maintained_in_rhel : List Int
deriving DecidableEq, Repr

/-- A collected device, the common shape of `Device` / `PCIDevice` /
`MiscDevice` (lines 77-113).  `modules` is the normalized candidate-driver
list, `current_module` the module bound via the sysfs `driver/module`
symlink (an external input to the core), `pci_id` the 4-integer ID tuple
for PCI devices and `[]` for misc devices. -/
structure Device where
  sysfs_path : String
  modalias : String
  modules : List String
  current_module : Option String
  pci_id : List Nat
deriving DecidableEq, Repr

/-- Lookup in a Python dict represented as its iteration-order association
list: `dict.get` returns the value of the *last* binding of the key
(later comprehension items overwrite earlier ones). -/
def dget {α β : Type} [DecidableEq α] (m : List (α × β)) (k : α) : Option β :=
  (m.reverse.find? (fun p => decide (p.1 = k))).map (·.2)

/-- One hexadecimal digit, as accepted by Python `int(x, 16)`. -/
def hexDigit? (c : Char) : Option Nat :=
  if '0' ≤ c ∧ c ≤ '9' then some (c.toNat - '0'.toNat)
  else if 'a' ≤ c ∧ c ≤ 'f' then some (c.toNat - 'a'.toNat + 10)
  else if 'A' ≤ c ∧ c ≤ 'F' then some (c.toNat - 'A'.toNat + 10)
  else none

/-- Python `int(s, 16)` on a plain string of hex digits (the database's ID
groups); `none` models the `ValueError` raised on an empty or non-hex
group.  (Python also tolerates surrounding whitespace, a sign and a `0x`
prefix; the database ID groups are plain hex digits.) -/
def int16? (s : String) : Option Nat :=
  match s.data with
  | [] => none
  | l => l.foldlM (fun acc c => (hexDigit? c).map (fun d => acc * 16 + d)) 0

/-- Python `s.split(':')` on a character list: split at every colon,
keeping empty pieces. -/
def splitColon : List Char → List (List Char)
  | [] => [[]]
  | c :: cs =>
    if c = ':' then [] :: splitColon cs
    else match splitColon cs with
      | [] => [[c]]
      | p :: ps => (c :: p) :: ps

/-- The groups of `parse_pci_id`: `int(x, 16)` for every colon-separated
group, failing (`none`) if any group does. -/
def parse_groups : List (List Char) → Option (List Nat)
  | [] => some []
  | g :: gs =>
    match int16? (String.mk g) with
    | none => none
    | some n => (parse_groups gs).map (fun ns => n :: ns)

/-- `parse_pci_id` inside `get_pci_id_entry_map` (lines 210-211):
`tuple(int(x, 16) for x in pci_id.split(':'))`.  The tuple is modelled as a
`List Nat`; its length is the number of colon-separated groups. -/
def parse_pci_id (pci_id : String) : Option (List Nat) :=
  parse_groups (splitColon pci_id.data)

/-- The pair list of the `get_pci_id_entry_map` dict comprehension over
the already-filtered entries: `(parse_pci_id(device_id), entry)` in source
order, failing (`none`, the Python exception) if some `device_id` fails to
parse. -/
def build_pci_pairs : List CompatEntry → Option (List (List Nat × CompatEntry))
  | [] => some []
  | ent :: rest =>
    match parse_pci_id ent.device_id with
    | none => none
    | some k => (build_pci_pairs rest).map (fun ps => (k, ent) :: ps)

/-- `get_pci_id_entry_map` (lines 209-217): association list, in source
order, of `(parsed id, entry)` for entries with `device_type == 'pci'` and
a non-empty `device_id`; `none` models the exception when some included
`device_id` fails to parse. -/
def get_pci_id_entry_map (compat_db : List CompatEntry) :
    Option (List (List Nat × CompatEntry)) :=
  build_pci_pairs (compat_db.filter (fun ent =>
    decide (ent.device_type = "pci" ∧ ent.device_id ≠ "")))

/-- `get_module_entry_map` (lines 220-225): association list, in source
order, of `(normalized driver_name, entry)` for entries with empty
`device_id`. -/
def get_module_entry_map (compat_db : List CompatEntry) :
    List (String × CompatEntry) :=
  (compat_db.filter (fun ent => decide (ent.device_id = ""))).map
    (fun ent => (normalize_module_name ent.driver_name, ent))

/-- `get_status` (lines 256-264). -/
def get_status (entry : Option CompatEntry) (target_version : Int) : Status :=
  match entry with
  | none => Status.ok
  | some e =>
    if target_version ∉ e.available_in_rhel then Status.removed
    else if target_version ∉ e.maintained_in_rhel then Status.unmaintained
    else Status.ok

/-- A Python `set` built from a list of strings: its distinct elements in
first-occurrence order.  The program only queries membership, size, and
(`list(s)[0]`, used solely on singleton sets) the sole element. -/
def pySet (l : List String) : List String :=
  l.eraseDups

/-- One line of the `find /sys/devices -name modalias` walk of
`get_misc_devices` (lines 159-196), together with the data the `Device`
constructor reads from sysfs for it: `path` is `dirname(filename)`,
`modalias` the file's contents, `current_module` the basename of the
`driver/module` symlink when present (lines 83-89). -/
structure SysfsNode where
  path : String
  modalias : String
  current_module : Option String
deriving DecidableEq, Repr

/-- `get_misc_devices` (lines 159-196).  `resolve` is the external
`modprobe --resolve-alias` collaborator (per-alias module list; a failed
resolution is the empty list — the `modalias` cache at lines 164-184 only
memoizes this function and is semantically transparent).  Nodes whose
alias starts with `pci:` or `x86cpu:` are skipped.  A device with no
bound module whose resolved set is a singleton whose element is among the
loaded modules gets that element adopted as its current module
(lines 191-193); note the adoption test and the adopted name use the
*raw* resolved names, while `Device.modules` stores them normalized. -/
def get_misc_devices (resolve : String → List String)
    (loaded_modules : List String) (nodes : List SysfsNode) : List Device :=
  nodes.filterMap (fun n =>
    if "pci:".data.isPrefixOf n.modalias.data then none
    else if "x86cpu:".data.isPrefixOf n.modalias.data then none
    else
      let modules := pySet (resolve n.modalias)
      let inferred :=
        if n.current_module = none ∧ modules.length = 1
            ∧ ∃ m ∈ modules, m ∈ loaded_modules
        then modules.head?
        else n.current_module
      some { sysfs_path := n.path, modalias := n.modalias,
             modules := modules.map normalize_module_name,
             current_module := inferred, pci_id := [] })

/-- The inner `for idx in (4, 3, 2)` loop of `match_devices`
(lines 237-241): look the device's ID tuple up under its 4-, 3- and
2-element prefixes in turn; the first hit wins. -/
def pci_lookup (pci_id_entry_map : List (List Nat × CompatEntry))
    (dev : Device) : Option CompatEntry :=
  [4, 3, 2].findSome? (fun idx => dget pci_id_entry_map (dev.pci_id.take idx))

/-- `match_devices` (lines 228-253), with the device inventories passed in
(the Python function fetches them from its collaborators).  The two
imperative loops are rendered as list comprehensions producing the same
sequences: ID-matched PCI devices first (resolved module `None`,
line 240), then the module-path devices — misc devices followed by the
deferred PCI devices appended at line 243 — each recorded with its current
module and that module's `moduleIndex` entry (lines 245-251).
`dev_modules`, a set in Python, is the concatenation of every device's
candidate list (lines 235 and 246; deferred PCI devices contribute twice
in Python too, harmlessly, the set being used only through membership). -/
def match_devices (pci_id_entry_map : List (List Nat × CompatEntry))
    (mod_entry_map : List (String × CompatEntry))
    (pci_devs misc_devs : List Device) :
    List (Device × Option String × Option CompatEntry) × List String :=
  let deferred := pci_devs.filter (fun dev => (pci_lookup pci_id_entry_map dev).isNone)
  let check_mod_devs := misc_devs ++ deferred
  let dev_entries :=
    pci_devs.filterMap (fun dev =>
      (pci_lookup pci_id_entry_map dev).map
        (fun ent => (dev, (none : Option String), some ent)))
    ++ check_mod_devs.map (fun dev =>
      (dev, dev.current_module, dev.current_module.bind (fun m => dget mod_entry_map m)))
  let dev_modules := (pci_devs ++ check_mod_devs).flatMap (fun dev => dev.modules)
  (dev_entries, dev_modules)

/-- The subject of a report record: the device object for device-kind
records, the module name for module-kind records. -/
inductive Subject where
  | device (d : Device)
  | module (m : String)
deriving DecidableEq, Repr

/-- A report record `(obj_type, obj, status.name, (message, entry))` as
appended by `get_incompatible_devices` (line 271) and
`get_incompatible_modules` (line 307). -/
structure Record where
  obj_type : String
  obj : Subject
  status : String
  msg : String
  ent : Option CompatEntry
deriving DecidableEq, Repr

/-- Python `repr` of a string, as interpolated by `'{!r}'` on line 283,
for strings containing no quote, backslash or control character (the only
strings it is applied to are hardware aliases): single quotes around the
text. -/
def pyStrRepr (s : String) : String :=
  "'" ++ s ++ "'"

/-- The loop body of `get_incompatible_devices` (lines 273-294) for one
`(dev, mod, ent)` triple, returning the records it appends together with
the aliases it passes to `kmod.has_module` (the Driver-Presence Oracle,
modelled as `Option` of a lookup function; `none` is `--skip-kmod`).
With no database entry: devices without a bound module are skipped
(line 275); devices with no candidate drivers whose bound module is not
built in are skipped (line 277); otherwise, when the oracle is present it
is queried with the device's alias, a hit is silently compatible and a
miss yields a `removed` record naming the alias (lines 279-284). -/
def device_check (kmod : Option (String → Bool)) (builtin_modules : List String)
    (target_version : Int) (x : Device × Option String × Option CompatEntry) :
    List Record × List String :=
  match x.2.2 with
  | none =>
    match x.1.current_module with
    | none => ([], [])
    | some cur =>
      if x.1.modules = [] ∧ cur ∉ builtin_modules then ([], [])
      else
        match kmod with
        | none => ([], [])
        | some has_module =>
          if has_module x.1.modalias then ([], [x.1.modalias])
          else ([{ obj_type := "device", obj := .device x.1,
                   status := Status.removed.name,
                   msg := "No module for " ++ pyStrRepr x.1.modalias,
                   ent := none }],
                [x.1.modalias])
  | some e =>
    let st := get_status (some e) target_version
    if st = Status.ok then ([], [])
    else
      ([{ obj_type := "device", obj := .device x.1, status := st.name,
          msg := match x.2.1 with
            | none => "Device with ID " ++ e.device_id ++ " is " ++ st.name
            | some m => "Module " ++ m ++ " is " ++ st.name,
          ent := some e }], [])

/-- `get_incompatible_devices` (lines 267-296): the records of
`device_check` over the match records, in order. -/
def get_incompatible_devices
    (dev_entries : List (Device × Option String × Option CompatEntry))
    (kmod : Option (String → Bool)) (builtin_modules : List String)
    (target_version : Int) : List Record :=
  dev_entries.flatMap
    (fun x => (device_check kmod builtin_modules target_version x).1)

/-- The sequence of aliases `get_incompatible_devices` submits to the
Driver-Presence Oracle, in query order (the other projection of
`device_check`). -/
def oracle_queries
    (dev_entries : List (Device × Option String × Option CompatEntry))
    (kmod : Option (String → Bool)) (builtin_modules : List String)
    (target_version : Int) : List String :=
  dev_entries.flatMap
    (fun x => (device_check kmod builtin_modules target_version x).2)

/-- `get_incompatible_modules` (lines 299-309): one `module`-kind record,
with empty message, per orphan module whose status is not `ok`. -/
def get_incompatible_modules (mod_entries : List (String × Option CompatEntry))
    (target_version : Int) : List Record :=
  mod_entries.filterMap (fun me =>
    let st := get_status me.2 target_version
    if st = Status.ok then none
    else some { obj_type := "module", obj := .module me.1, status := st.name,
                msg := "", ent := me.2 })

/-- fnmatch-style glob matching of a whole string, on characters: `*`
matches any (possibly empty) sequence, `?` any single character, any
other character itself.  (fnmatch's `[...]` classes are not modelled;
no claim exercises them.)  This is the semantics of the regex
`fnmatch.translate` produces: each translated pattern is wrapped
`(?s:...)\Z`, i.e. fully anchored, with `*` becoming `.*` under DOTALL. -/
def glob_match : List Char → List Char → Bool
  | [], cs => cs.isEmpty
  | '*' :: ps, cs => (cs.tails.map (fun suffix => glob_match ps suffix)).any id
  | '?' :: ps, cs =>
    match cs with
    | [] => false
    | _ :: cs2 => glob_match ps cs2
  | p :: ps, cs =>
    match cs with
    | [] => false
    | c :: cs2 => p == c && glob_match ps cs2

/-- `load_exc_db` (lines 346-354), with the decoded JSON pattern list as
input: an empty list compiles to a predicate that never matches; a
non-empty list compiles (via `'|'.join(map(fnmatch.translate, patterns))`
and `re.match`) to a predicate holding iff some pattern glob-matches the
whole name. -/
def load_exc_db (patterns : List String) : String → Bool :=
  if patterns = [] then fun _ => false
  else fun name => patterns.any (fun p => glob_match p.data name.data)

/-- The name `check_exc` (lines 327-330) tests against the exception
predicate: the module name for `module`-kind records (where `obj` *is*
the name), the device's hardware alias otherwise.  Both record producers
set `obj_type = "module"` exactly when the subject is a module name, so
dispatching on the subject agrees with the source's dispatch on
`obj_type`. -/
def exc_target (r : Record) : String :=
  match r.obj with
  | .module m => m
  | .device d => d.modalias

/-- `check_exc` inside `get_incompatible` (lines 327-330): keep a record
iff its target does not match the exception predicate. -/
def check_exc (exc_pred : String → Bool) (r : Record) : Bool :=
  !(exc_pred (exc_target r))

/-- The orphan-module pairs of `get_incompatible` (lines 318-321):
`(mod, moduleIndex.get(mod))` for each loaded module not claimed by any
device, in the loaded-module set's iteration order. -/
def orphan_mod_entries (modules_enum claimed : List String)
    (mod_entry_map : List (String × CompatEntry)) :
    List (String × Option CompatEntry) :=
  (modules_enum.filter (fun m => decide (m ∉ claimed))).map
    (fun m => (m, dget mod_entry_map m))

/-- `get_incompatible` (lines 312-338) before its exception filter: the
chained device and orphan-module records.  Inputs stand for the external
collaborators: `modules_enum` is the loaded-module set of
`get_loaded_modules()` *in its Python-set iteration order*, `all_modules`
the `/sys/module` listing of `get_all_modules()` (membership only),
`pci_devs` the `lspci` inventory, `misc_nodes`/`resolve` the sysfs walk
and alias resolver, `kmod` the oracle (`none` for `--skip-kmod`).
`none` models the abort when a PCI `device_id` fails to parse. -/
def report_unfiltered (compat_db : List CompatEntry)
    (kmod : Option (String → Bool)) (modules_enum all_modules : List String)
    (pci_devs : List Device) (misc_nodes : List SysfsNode)
    (resolve : String → List String) (target_version : Int) :
    Option (List Record) :=
  (get_pci_id_entry_map compat_db).map (fun pci_id_entry_map =>
    let mod_entry_map := get_module_entry_map compat_db
    let misc_devs := get_misc_devices resolve modules_enum misc_nodes
    let md := match_devices pci_id_entry_map mod_entry_map pci_devs misc_devs
    let builtin_modules := all_modules.filter (fun m => decide (m ∉ modules_enum))
    get_incompatible_devices md.1 kmod builtin_modules target_version
      ++ get_incompatible_modules
          (orphan_mod_entries modules_enum md.2 mod_entry_map) target_version)

/-- `get_incompatible` (lines 312-338): the unfiltered report with every
record whose target matches the exception predicate dropped
(lines 332-338). -/
def get_incompatible (compat_db : List CompatEntry) (exc_pred : String → Bool)
    (kmod : Option (String → Bool)) (modules_enum all_modules : List String)
    (pci_devs : List Device) (misc_nodes : List SysfsNode)
    (resolve : String → List String) (target_version : Int) :
    Option (List Record) :=
  (report_unfiltered compat_db kmod modules_enum all_modules pci_devs
      misc_nodes resolve target_version).map
    (fun recs => recs.filter (check_exc exc_pred))

/-- `enum` is a possible iteration order of a Python set with the given
contents: duplicate-free and with exactly the contents as members.
CPython does not determine which order a set of strings enumerates in
from its contents (string hashing is salted per process). -/
def valid_enum (contents enum : List String) : Prop :=
  enum.Nodup ∧ ∀ m, m ∈ enum ↔ m ∈ contents

/-- The libkmod resource events of the `KMod` oracle (lines 20-64):
creation of the context handle by `kmod_new` (line 45), a hypothetical
release of it (`kmod_unref` — the program binds no such symbol), one
`kmod_module_new_from_lookup` call, and one `kmod_module_unref_list`
call. -/
inductive KModEvent where
  | ctx_new
  | ctx_release
  | list_lookup
  | list_unref
deriving DecidableEq, Repr

/-- The events of `KMod.__init__` (lines 21-56): a single `kmod_new`.
No binding for releasing the context exists anywhere in the program, so
no exit path emits `ctx_release`. -/
def kmod_init_events : List KModEvent :=
  [KModEvent.ctx_new]

/-- The events of one `KMod.has_module` call (lines 58-64), given whether
the lookup succeeds: on success the module list is looked up and then
released by `kmod_module_unref_list`; on failure the exception at line 61
propagates before the release. -/
def has_module_events (lookup_ok : Bool) : List KModEvent :=
  if lookup_ok then [KModEvent.list_lookup, KModEvent.list_unref]
  else [KModEvent.list_lookup]

/-- The event trace of the oracle lookups of one run, given each lookup's
outcome: a failed lookup raises, aborting the run (lines 60-61,
`get_incompatible` installs no handler). -/
def kmod_lookup_trace : List Bool → List KModEvent
  | [] => []
  | ok :: rest =>
    has_module_events ok ++ (if ok then kmod_lookup_trace rest else [])

/-- The full libkmod event trace of a run with the oracle enabled:
`KMod(...)` is constructed once (line 323), then the lookups run. -/
def kmod_run_trace (lookups : List Bool) : List KModEvent :=
  kmod_init_events ++ kmod_lookup_trace lookups

/-! ### Concrete data used by witnesses and counterexamples -/

/-- The end-to-end example entry of the spec: Intel I210 (`8086:1533`),
available in 7 and 8, maintained only in 7. -/
def entI210 : CompatEntry :=
  { device_type := "pci", device_id := "8086:1533", driver_name := "igb",
    available_in_rhel := [7, 8], maintained_in_rhel := [7] }

/-- A PCI device with full ID `(0x8086, 0x1533, 0x0000, 0x0000)`. -/
def devI210 : Device :=
  { sysfs_path := "/sys/bus/pci/devices/0000:01:00.0",
    modalias := "pci:v00008086d00001533sv00000000sd00000000bc02sc00i00",
    modules := ["igb"], current_module := some "igb",
    pci_id := [0x8086, 0x1533, 0, 0] }

/-- A misc device with a bound module, no candidate drivers, and no
database entry. -/
def devNoCand : Device :=
  { sysfs_path := "/sys/devices/platform/d3", modalias := "acpi:ABC",
    modules := [], current_module := some "m", pci_id := [] }

/-- A sysfs node with no bound module, whose alias resolves to a single
hyphenated module name. -/
def nodeHyphen : SysfsNode :=
  { path := "/sys/devices/platform/d5", modalias := "acpi:XYZ",
    current_module := none }

/-- A module-keyed entry, absent from every RHEL version, for driver
`a`. -/
def entModA : CompatEntry :=
  { device_type := "misc", device_id := "", driver_name := "a",
    available_in_rhel := [], maintained_in_rhel := [] }

/-- A module-keyed entry, absent from every RHEL version, for driver
`b`. -/
def entModB : CompatEntry :=
  { device_type := "misc", device_id := "", driver_name := "b",
    available_in_rhel := [], maintained_in_rhel := [] }

/-- A module-keyed entry, absent from every RHEL version, for driver
`foo`. -/
def entModFoo : CompatEntry :=
  { device_type := "misc", device_id := "", driver_name := "foo",
    available_in_rhel := [], maintained_in_rhel := [] }

/-- A misc device bound to module `foo` with an empty candidate list. -/
def devFoo : Device :=
  { sysfs_path := "/sys/devices/platform/d7", modalias := "acpi:FOO",
    modules := [], current_module := some "foo", pci_id := [] }

/-- A second module-keyed entry for driver `a`, later in the source list
than `entModA`. -/
def entModA9 : CompatEntry :=
  { device_type := "misc", device_id := "", driver_name := "a",
    available_in_rhel := [9], maintained_in_rhel := [9] }

/-- A second PCI entry for ID `8086:1533`, later in the source list than
`entI210`. -/
def entI210later : CompatEntry :=
  { device_type := "pci", device_id := "8086:1533", driver_name := "igb",
    available_in_rhel := [7, 8], maintained_in_rhel := [] }

/-- A PCI device whose ID hits no index key under any prefix. -/
def devPciMiss : Device :=
  { sysfs_path := "/sys/bus/pci/devices/0000:02:00.0",
    modalias := "pci:v000010ECd00008168sv00000000sd00000000bc02sc00i00",
    modules := ["r8169"], current_module := some "r8169",
    pci_id := [0x10ec, 0x8168, 0, 0] }

/-- The sysfs node of `devFoo`: bound to `foo`, alias resolving to no
candidates. -/
def nodeFoo : SysfsNode :=
  { path := "/sys/devices/platform/d7", modalias := "acpi:FOO",
    current_module := some "foo" }

/-- A module-keyed entry, absent from every RHEL version, for driver
`nvidia_drm`. -/
def entModNvidia : CompatEntry :=
  { device_type := "misc", device_id := "", driver_name := "nvidia_drm",
    available_in_rhel := [], maintained_in_rhel := [] }

/-- The orphan-module record the pipeline produces for `a` against
`entModA` at target version 9. -/
def recModA : Record :=
  { obj_type := "module", obj := .module "a", status := "removed",
    msg := "", ent := some entModA }

/-- The orphan-module record the pipeline produces for `nvidia_drm`
against `entModNvidia` at target version 9. -/
def recNvidia : Record :=
  { obj_type := "module", obj := .module "nvidia_drm", status := "removed",
    msg := "", ent := some entModNvidia }

/-- The orphan-module record the pipeline produces for `b` against
`entModB` at target version 9. -/
def recModB : Record :=
  { obj_type := "module", obj := .module "b", status := "removed",
    msg := "", ent := some entModB }

end HwCompat

/-! ## Theorems -/

namespace HwCompat

/-- Python dict lookup on the empty association list. -/
theorem dget_nil {α β : Type} [DecidableEq α] (k : α) :
    dget ([] : List (α × β)) k = none := rfl

/-- Python dict lookup on a cons: the later bindings (the tail was
produced first here, so the *head* is the oldest… the list is in
iteration order, the head the earliest binding) are preferred, so the
tail is consulted first. -/
theorem dget_cons {α β : Type} [DecidableEq α] (k k' : α) (v : β)
    (m : List (α × β)) :
    dget ((k', v) :: m) k = (dget m k).or (if k' = k then some v else none) := by
  unfold dget
  rw [List.reverse_cons, List.find?_append]
  cases h : (m.reverse.find? (fun p => decide (p.1 = k))) with
  | none =>
    simp only [Option.none_or, Option.map_none, Option.none_or]
    by_cases hk : k' = k <;> simp [List.find?, hk]
  | some p =>
    simp [Option.or, h]

/-- `getLast?` of a cons, phrased through `Option.or`. -/
theorem getLast?_cons_or {α : Type} (a : α) (l : List α) :
    (a :: l).getLast? = (l.getLast?).or (some a) := by
  cases l with
  | nil => rfl
  | cons b t =>
    rw [List.getLast?_cons_cons]
    cases h : (b :: t).getLast? with
    | none => simp [List.getLast?] at h
    | some x => simp [Option.or]

/-- Lookup in an association list of `(key e, e)` pairs returns the last
entry with the sought key. -/
theorem dget_map_entries {α β : Type} [DecidableEq α] [DecidableEq β]
    (key : β → α) (l : List β) (k : α) :
    dget (l.map (fun e => (key e, e))) k
      = (l.filter (fun e => decide (key e = k))).getLast? := by
  induction l with
  | nil => rfl
  | cons e t ih =>
    rw [List.map_cons, dget_cons, ih, List.filter_cons]
    by_cases hk : key e = k
    · simp [hk, getLast?_cons_or]
    · simp [hk]

/-- Decomposing a successful `build_pci_pairs`: every produced pair comes
from an entry with its parsed key, every entry contributes a pair, and
lookup returns the last entry whose key parses to the sought value. -/
theorem build_pci_pairs_spec :
    ∀ (l : List CompatEntry) (m : List (List Nat × CompatEntry)),
      build_pci_pairs l = some m →
      (∀ p ∈ m, p.2 ∈ l ∧ parse_pci_id p.2.device_id = some p.1) ∧
      (∀ e ∈ l, ∃ k, parse_pci_id e.device_id = some k ∧ (k, e) ∈ m) ∧
      (∀ k, dget m k
        = (l.filter (fun e => decide (parse_pci_id e.device_id = some k))).getLast?) := by
  intro l
  induction l with
  | nil =>
    intro m h
    simp only [build_pci_pairs, Option.some_inj] at h
    subst h
    refine ⟨by simp, by simp, fun k => rfl⟩
  | cons e t ih =>
    intro m h
    rw [build_pci_pairs] at h
    cases hge : parse_pci_id e.device_id with
    | none => simp [hge] at h
    | some ke =>
      cases hmt : build_pci_pairs t with
      | none => simp [hge, hmt] at h
      | some mt =>
        simp only [hge, hmt] at h
        have hm2 : (ke, e) :: mt = m := by simpa using h
        subst hm2
        obtain ⟨ih1, ih2, ih3⟩ := ih mt hmt
        refine ⟨?_, ?_, ?_⟩
        · intro p hp
          rcases List.mem_cons.mp hp with hp | hp
          · subst hp; exact ⟨List.mem_cons_self _ _, hge⟩
          · exact ⟨List.mem_cons_of_mem _ (ih1 p hp).1, (ih1 p hp).2⟩
        · intro e' he'
          rcases List.mem_cons.mp he' with he' | he'
          · subst he'; exact ⟨ke, hge, List.mem_cons_self _ _⟩
          · obtain ⟨k, hk, hkm⟩ := ih2 e' he'
            exact ⟨k, hk, List.mem_cons_of_mem _ hkm⟩
        · intro k
          rw [dget_cons, ih3, List.filter_cons]
          by_cases hk : ke = k
          · subst hk
            simp [hge, getLast?_cons_or]
          · have hne : (decide (parse_pci_id e.device_id = some k)) = false := by
              simp [hge, hk]
            simp [hne, hk]

/-- C1: Status resolution is a pure total function of
(entry, target version): `resolve(none, v) = ok` for every `v`; for an
entry, the status is `removed` iff `v` is not available, `unmaintained`
iff `v` is available but not maintained, and `ok` iff `v` is both; in
particular a version in neither set yields `removed`, never
`unmaintained`. -/
theorem get_status_resolution :
    (∀ v : Int, get_status none v = Status.ok) ∧
    (∀ (e : CompatEntry) (v : Int),
      (get_status (some e) v = Status.removed ↔ v ∉ e.available_in_rhel) ∧
      (get_status (some e) v = Status.unmaintained ↔
        v ∈ e.available_in_rhel ∧ v ∉ e.maintained_in_rhel) ∧
      (get_status (some e) v = Status.ok ↔
        v ∈ e.available_in_rhel ∧ v ∈ e.maintained_in_rhel)) := by
  refine ⟨fun v => rfl, fun e v => ?_⟩
  have hs : get_status (some e) v
      = (if v ∉ e.available_in_rhel then Status.removed
        else if v ∉ e.maintained_in_rhel then Status.unmaintained
        else Status.ok) := rfl
  rw [hs]
  split_ifs with h1 h2 <;> simp_all

/-- C7: if two compatibility entries yield the same key, the later one in
the source list is retained: lookup in either built map returns the
*last* included entry whose key equals the sought key. -/
theorem index_last_write_wins (compat_db : List CompatEntry) :
    (∀ k : String,
      dget (get_module_entry_map compat_db) k
        = ((compat_db.filter (fun e => decide (e.device_id = ""))).filter
            (fun e => decide (normalize_module_name e.driver_name = k))).getLast?) ∧
    (∀ (m : List (List Nat × CompatEntry)),
      get_pci_id_entry_map compat_db = some m →
      ∀ k : List Nat,
        dget m k
          = ((compat_db.filter (fun e =>
                decide (e.device_type = "pci" ∧ e.device_id ≠ ""))).filter
              (fun e => decide (parse_pci_id e.device_id = some k))).getLast?) := by
  constructor
  · intro k
    unfold get_module_entry_map
    exact dget_map_entries (fun e : CompatEntry => normalize_module_name e.driver_name) _ k
  · intro m hm k
    exact (build_pci_pairs_spec _ m hm).2.2 k

/-- Witness for `index_last_write_wins`: on a database with two entries
sharing the module key `a` and two PCI entries sharing the ID `8086:1533`,
both lookups return the later entry. -/
theorem index_last_write_wins_witness :
    dget (get_module_entry_map [entModA, entModA9]) "a" = some entModA9 ∧
    ∀ m, get_pci_id_entry_map [entI210, entI210later] = some m →
      dget m [0x8086, 0x1533] = some entI210later := by
  constructor
  · rw [(index_last_write_wins _).1 "a"]
    decide
  · intro m hm
    rw [(index_last_write_wins _).2 m hm [0x8086, 0x1533]]
    decide

/-- C6, counterexample: on a database consisting of the spec's own
end-to-end example entry (`device_id = "8086:1533"`, two colon-groups),
`pciIndex` is built successfully with the key `[0x8086, 0x1533]`, whose
length is 2, not 4 — so not every key of `pciIndex` is a full 4-integer
tuple. -/
theorem pci_index_key_length_cex :
    get_pci_id_entry_map [entI210] = some [([0x8086, 0x1533], entI210)] ∧
    ([0x8086, 0x1533] : List Nat).length ≠ 4 := by
  decide

/-- C6, amended: `pciIndex` maps, for every entry with
`device_type = "pci"` and a non-empty `device_id`, the integer tuple
parsed from `device_id` — one integer per colon-group, so its length is
the number of groups, not necessarily 4 — to that entry, and contains
nothing else. -/
theorem pci_index_characterization (compat_db : List CompatEntry)
    (m : List (List Nat × CompatEntry))
    (hm : get_pci_id_entry_map compat_db = some m) :
    (∀ p ∈ m, p.2 ∈ compat_db ∧ p.2.device_type = "pci" ∧ p.2.device_id ≠ "" ∧
      parse_pci_id p.2.device_id = some p.1) ∧
    (∀ e ∈ compat_db, e.device_type = "pci" → e.device_id ≠ "" →
      ∃ k, parse_pci_id e.device_id = some k ∧ (k, e) ∈ m) := by
  obtain ⟨h1, h2, _⟩ := build_pci_pairs_spec _ m hm
  constructor
  · intro p hp
    obtain ⟨hmem, hparse⟩ := h1 p hp
    rw [List.mem_filter] at hmem
    obtain ⟨hdb, hcond⟩ := hmem
    have hc : p.2.device_type = "pci" ∧ p.2.device_id ≠ "" := of_decide_eq_true hcond
    exact ⟨hdb, hc.1, hc.2, hparse⟩
  · intro e he hdt hdi
    exact h2 e (List.mem_filter.mpr ⟨he, by simp [hdt, hdi]⟩)

/-- Witness for `pci_index_characterization`: the included entry of a
two-entry database is recorded under its parsed 2-integer key. -/
theorem pci_index_characterization_witness :
    entI210 ∈ [entI210, entModA] ∧ entI210.device_type = "pci" ∧
    entI210.device_id ≠ "" ∧
    parse_pci_id entI210.device_id = some [0x8086, 0x1533] :=
  (pci_index_characterization [entI210, entModA] [([0x8086, 0x1533], entI210)]
    (by decide)).1 ([0x8086, 0x1533], entI210) (by decide)

/-- C2: the Device Matcher looks a PCI device up under its 4-element ID
tuple, then the 3-element prefix, then the 2-element prefix, the first
hit winning and being recorded with a null resolved-module; if all three
lookups miss the device is deferred to the module-based matching path.
Concretely, with `pciIndex` containing only the key
`(0x8086, 0x1533)`, a device with full ID `(0x8086, 0x1533, 0, 0)`
resolves to that entry via the 2-element fallback. -/
theorem match_devices_pci_fallback :
    (∀ (m : List (List Nat × CompatEntry)) (dev : Device),
      pci_lookup m dev
        = ((dget m (dev.pci_id.take 4)).or
            ((dget m (dev.pci_id.take 3)).or (dget m (dev.pci_id.take 2))))) ∧
    (∀ pciMap modMap (pci_devs misc_devs : List Device), ∀ dev ∈ pci_devs,
      (∀ e, pci_lookup pciMap dev = some e →
        (dev, (none : Option String), some e)
          ∈ (match_devices pciMap modMap pci_devs misc_devs).1) ∧
      (pci_lookup pciMap dev = none →
        (dev, dev.current_module, dev.current_module.bind (fun mo => dget modMap mo))
          ∈ (match_devices pciMap modMap pci_devs misc_devs).1)) ∧
    (dget [([0x8086, 0x1533], entI210)] (devI210.pci_id.take 4) = none ∧
      dget [([0x8086, 0x1533], entI210)] (devI210.pci_id.take 3) = none ∧
      dget [([0x8086, 0x1533], entI210)] (devI210.pci_id.take 2) = some entI210 ∧
      pci_lookup [([0x8086, 0x1533], entI210)] devI210 = some entI210 ∧
      (match_devices [([0x8086, 0x1533], entI210)] [] [devI210] []).1
        = [(devI210, none, some entI210)]) := by
  refine ⟨?_, ?_, by decide⟩
  · intro m dev
    cases h4 : dget m (dev.pci_id.take 4) <;>
      cases h3 : dget m (dev.pci_id.take 3) <;>
        cases h2 : dget m (dev.pci_id.take 2) <;>
          simp [pci_lookup, List.findSome?_cons, h4, h3, h2, Option.or]
  · intro pciMap modMap pci_devs misc_devs dev hdev
    constructor
    · intro e he
      simp only [match_devices]
      apply List.mem_append_left
      exact List.mem_filterMap.mpr ⟨dev, hdev, by rw [he]; rfl⟩
    · intro he
      simp only [match_devices]
      apply List.mem_append_right
      apply List.mem_map.mpr
      refine ⟨dev, ?_, rfl⟩
      exact List.mem_append_right _
        (List.mem_filter.mpr ⟨hdev, by simp [he]⟩)

/-- Witness for `match_devices_pci_fallback`: a matched PCI device is
recorded with a null resolved-module, and a PCI device missing every
prefix is deferred to the module path. -/
theorem match_devices_pci_fallback_witness :
    (devI210, (none : Option String), some entI210)
      ∈ (match_devices [([0x8086, 0x1533], entI210)] [] [devI210] []).1 ∧
    (devPciMiss, devPciMiss.current_module,
        devPciMiss.current_module.bind (fun mo => dget [] mo))
      ∈ (match_devices [([0x8086, 0x1533], entI210)] [] [devPciMiss] []).1 :=
  ⟨(match_devices_pci_fallback.2.1 [([0x8086, 0x1533], entI210)] [] [devI210] []
      devI210 (by decide)).1 entI210 (by decide),
   (match_devices_pci_fallback.2.1 [([0x8086, 0x1533], entI210)] [] [devPciMiss] []
      devPciMiss (by decide)).2 (by decide)⟩

/-- C3, counterexample: for a device with *no* candidate driver names at
all (`modules = []`) whose bound module `m` is built into the kernel, the
oracle *is* consulted (the claim allows consultation only when at least
one candidate driver name is not built in), and on a `false` answer a
`removed` record naming the alias is produced. -/
theorem oracle_consultation_cex :
    devNoCand.modules = [] ∧
    (device_check (some (fun _ => false)) ["m"] 9 (devNoCand, some "m", none)).2
      = ["acpi:ABC"] ∧
    (device_check (some (fun _ => false)) ["m"] 9 (devNoCand, some "m", none)).1
      = [{ obj_type := "device", obj := .device devNoCand, status := "removed",
           msg := "No module for 'acpi:ABC'", ent := none }] := by
  decide

/-- C3, amended: the oracle is consulted for a device exactly when its
matched entry is none, the oracle is enabled, the device has a
currently-bound module, and either its candidate-driver list is non-empty
or its bound module is built into the running kernel; when consulted, a
`true` answer produces no record, a `false` answer produces a `removed`
record whose reason names the hardware alias; a disabled oracle skips the
check and produces no record; a device with a matched entry never reaches
the oracle. -/
theorem oracle_consultation (kmod : Option (String → Bool))
    (builtin_modules : List String) (target_version : Int) (dev : Device)
    (mo : Option String) :
    ((device_check kmod builtin_modules target_version (dev, mo, none)).2 ≠ [] ↔
      kmod ≠ none ∧ ∃ cur, dev.current_module = some cur ∧
        (dev.modules ≠ [] ∨ cur ∈ builtin_modules)) ∧
    (∀ f, kmod = some f →
      (device_check kmod builtin_modules target_version (dev, mo, none)).2 ≠ [] →
      (device_check kmod builtin_modules target_version (dev, mo, none)).2
          = [dev.modalias] ∧
      (f dev.modalias = true →
        (device_check kmod builtin_modules target_version (dev, mo, none)).1 = []) ∧
      (f dev.modalias = false →
        (device_check kmod builtin_modules target_version (dev, mo, none)).1
          = [{ obj_type := "device", obj := .device dev, status := "removed",
               msg := "No module for " ++ pyStrRepr dev.modalias, ent := none }])) ∧
    (kmod = none →
      (device_check kmod builtin_modules target_version (dev, mo, none)).1 = [] ∧
      (device_check kmod builtin_modules target_version (dev, mo, none)).2 = []) ∧
    (∀ ent, (device_check kmod builtin_modules target_version (dev, mo, some ent)).2
      = []) := by
  refine ⟨?_, ?_, ?_, ?_⟩
  · cases hc : dev.current_module with
    | none => simp [device_check, hc]
    | some cur =>
      by_cases hcond : dev.modules = [] ∧ cur ∉ builtin_modules
      · obtain ⟨h1, h2⟩ := hcond
        simp [device_check, hc, h1, h2]
      · cases hk : kmod with
        | none => simp [device_check, hc, hcond, hk]
        | some f =>
          have hor : dev.modules ≠ [] ∨ cur ∈ builtin_modules := by tauto
          cases hf : f dev.modalias <;>
            simp [device_check, hc, hcond, hk, hf, hor]
  · intro f hk hq
    cases hc : dev.current_module with
    | none => simp [device_check, hc] at hq
    | some cur =>
      by_cases hcond : dev.modules = [] ∧ cur ∉ builtin_modules
      · simp [device_check, hc, hcond, hk] at hq
      · cases hf : f dev.modalias <;>
          simp [device_check, Status.name, hc, hcond, hk, hf]
  · intro hk
    cases hc : dev.current_module with
    | none => simp [device_check, hc]
    | some cur =>
      by_cases hcond : dev.modules = [] ∧ cur ∉ builtin_modules <;>
        simp [device_check, hc, hcond, hk]
  · intro ent
    by_cases hst : get_status (some ent) target_version = Status.ok <;>
      simp [device_check, hst]

/-- Witness for `oracle_consultation`: the consultation condition, oracle
answers and the disabled mode, instantiated on `devNoCand`. -/
theorem oracle_consultation_witness :
    ((device_check (some (fun _ => false)) ["m"] 9 (devNoCand, some "m", none)).2
        = ["acpi:ABC"] ∧
      ((fun (_ : String) => false) "acpi:ABC" = true →
        (device_check (some (fun _ => false)) ["m"] 9 (devNoCand, some "m", none)).1
          = []) ∧
      ((fun (_ : String) => false) "acpi:ABC" = false →
        (device_check (some (fun _ => false)) ["m"] 9 (devNoCand, some "m", none)).1
          = [{ obj_type := "device", obj := .device devNoCand, status := "removed",
               msg := "No module for " ++ pyStrRepr "acpi:ABC", ent := none }])) ∧
    ((device_check none ["m"] 9 (devNoCand, some "m", none)).1 = [] ∧
      (device_check none ["m"] 9 (devNoCand, some "m", none)).2 = []) ∧
    (device_check (some (fun _ => false)) ["m"] 9 (devNoCand, some "m",
        some entModA)).2 = [] :=
  ⟨(oracle_consultation (some (fun _ => false)) ["m"] 9 devNoCand
      (some "m")).2.1 (fun _ => false) rfl (by decide),
   (oracle_consultation none ["m"] 9 devNoCand (some "m")).2.2.1 rfl,
   (oracle_consultation (some (fun _ => false)) ["m"] 9 devNoCand
      (some "m")).2.2.2 entModA⟩

/-- The glob pattern `*` alone matches every string. -/
theorem glob_star_total (cs : List Char) : glob_match ['*'] cs = true := by
  have h0 : ([] : List Char) ∈ cs.tails := (List.mem_tails _ _).mpr List.nil_suffix
  have h1 : glob_match ['*'] cs
      = (cs.tails.map (fun suffix => glob_match [] suffix)).any id := rfl
  rw [h1, List.any_eq_true]
  exact ⟨glob_match [] [], List.mem_map.mpr ⟨[], h0, rfl⟩, rfl⟩

/-- The compiled exception matcher for `["nvidia*"]` matches every name
beginning with `nvidia`. -/
theorem nvidia_star_matches (rest : String) :
    load_exc_db ["nvidia*"] ("nvidia" ++ rest) = true := by
  have h0 : load_exc_db ["nvidia*"] ("nvidia" ++ rest)
      = glob_match "nvidia*".data ("nvidia" ++ rest).data := by
    simp [load_exc_db]
  have hdata : ("nvidia" ++ rest).data
      = 'n' :: 'v' :: 'i' :: 'd' :: 'i' :: 'a' :: rest.data := by
    rw [String.data_append]
    rfl
  have h2 : glob_match "nvidia*".data
        ('n' :: 'v' :: 'i' :: 'd' :: 'i' :: 'a' :: rest.data)
      = glob_match ['*'] rest.data := rfl
  rw [h0, hdata, h2]
  exact glob_star_total rest.data

/-- C4: the exception matcher compiled from an empty pattern list matches
nothing; a record appears in the final report iff it appears in the
unfiltered chain and the exception predicate does not match its target
(the hardware alias for device-kind records, the module name for
module-kind records) — so matching records are dropped regardless of
their status; and under the pattern list `["nvidia*"]` every chained
record whose target begins with `nvidia` is dropped. -/
theorem exception_filtering :
    (∀ name, load_exc_db [] name = false) ∧
    (∀ compat_db exc_pred kmod modules_enum all_modules pci_devs misc_nodes
        resolve target_version ur out,
      report_unfiltered compat_db kmod modules_enum all_modules pci_devs
          misc_nodes resolve target_version = some ur →
      get_incompatible compat_db exc_pred kmod modules_enum all_modules
          pci_devs misc_nodes resolve target_version = some out →
      ∀ r : Record, r ∈ out ↔ r ∈ ur ∧ exc_pred (exc_target r) = false) ∧
    (∀ compat_db kmod modules_enum all_modules pci_devs misc_nodes resolve
        target_version ur out,
      report_unfiltered compat_db kmod modules_enum all_modules pci_devs
          misc_nodes resolve target_version = some ur →
      get_incompatible compat_db (load_exc_db ["nvidia*"]) kmod modules_enum
          all_modules pci_devs misc_nodes resolve target_version = some out →
      ∀ (r : Record) (rest : String), r ∈ ur →
        exc_target r = "nvidia" ++ rest → r ∉ out) := by
  have hmem : ∀ compat_db exc_pred kmod modules_enum all_modules pci_devs
      misc_nodes resolve target_version ur out,
      report_unfiltered compat_db kmod modules_enum all_modules pci_devs
          misc_nodes resolve target_version = some ur →
      get_incompatible compat_db exc_pred kmod modules_enum all_modules
          pci_devs misc_nodes resolve target_version = some out →
      ∀ r : Record, r ∈ out ↔ r ∈ ur ∧ exc_pred (exc_target r) = false := by
    intro compat_db exc_pred kmod modules_enum all_modules pci_devs misc_nodes
      resolve target_version ur out hur hout r
    unfold get_incompatible at hout
    rw [hur] at hout
    have hfo : some (ur.filter (check_exc exc_pred)) = some out := hout
    injection hfo with hfo
    subst hfo
    rw [List.mem_filter]
    unfold check_exc
    rw [Bool.not_eq_true']
  refine ⟨fun name => rfl, hmem, ?_⟩
  intro compat_db kmod modules_enum all_modules pci_devs misc_nodes resolve
    target_version ur out hur hout r rest hr htarget hmemout
  have h1 := (hmem compat_db (load_exc_db ["nvidia*"]) kmod modules_enum
    all_modules pci_devs misc_nodes resolve target_version ur out hur hout
    r).mp hmemout
  rw [htarget, nvidia_star_matches rest] at h1
  exact Bool.noConfusion h1.2

/-- Witness for `exception_filtering`: the empty matcher rejects nothing
on a one-record run, and the `nvidia*` pattern drops the orphan-module
record for `nvidia_drm`. -/
theorem exception_filtering_witness :
    load_exc_db [] "nvidia_drm" = false ∧
    (recModA ∈ [recModA] ↔ recModA ∈ [recModA] ∧
      load_exc_db [] (exc_target recModA) = false) ∧
    recNvidia ∉ ([] : List Record) :=
  ⟨exception_filtering.1 "nvidia_drm",
   exception_filtering.2.1 [entModA] (load_exc_db []) none ["a"] [] [] []
     (fun _ => []) 9 [recModA] [recModA] (by decide) (by decide) recModA,
   exception_filtering.2.2 [entModNvidia] none ["nvidia_drm"] [] [] []
     (fun _ => []) 9 [recNvidia] [] (by decide) (by decide) recNvidia "_drm"
     (by decide) (by decide)⟩

/-- C5, counterexample: a sysfs node with no bound module whose alias
resolves to the single raw name `snd-foo`, with `snd_foo` loaded.  The
produced device has exactly one (normalized) candidate driver name,
`snd_foo`, and that name is in the loaded-module set — yet no inference
happens (`current_module` stays `none`), because the code intersects the
*raw* resolved names with the normalized loaded set. -/
theorem misc_inference_cex :
    (["snd_foo"] : List String).length = 1 ∧ "snd_foo" ∈ ["snd_foo"] ∧
    get_misc_devices (fun _ => ["snd-foo"]) ["snd_foo"] [nodeHyphen]
      = [{ sysfs_path := "/sys/devices/platform/d5", modalias := "acpi:XYZ",
           modules := ["snd_foo"], current_module := none, pci_id := [] }] := by
  decide

/-- C5, amended: every misc-path device is recorded with its current
module and that module's `moduleIndex` entry; a node with a bound module
keeps it; a node with no bound module and exactly one *raw* resolved
driver name adopts that raw name as its current module iff the raw name
itself (not its normalization) is in the loaded-module set — otherwise
the bound module stays absent. -/
theorem misc_device_module_matching :
    (∀ pciMap modMap (pci_devs misc_devs : List Device), ∀ dev ∈ misc_devs,
      (dev, dev.current_module,
          dev.current_module.bind (fun mo => dget modMap mo))
        ∈ (match_devices pciMap modMap pci_devs misc_devs).1) ∧
    (∀ (resolve : String → List String) (loaded : List String)
        (nodes : List SysfsNode), ∀ n ∈ nodes,
      "pci:".data.isPrefixOf n.modalias.data = false →
      "x86cpu:".data.isPrefixOf n.modalias.data = false →
      (∀ c, n.current_module = some c →
        { sysfs_path := n.path, modalias := n.modalias,
          modules := (pySet (resolve n.modalias)).map normalize_module_name,
          current_module := some c, pci_id := [] }
          ∈ get_misc_devices resolve loaded nodes) ∧
      (∀ r, n.current_module = none → pySet (resolve n.modalias) = [r] →
        (r ∈ loaded →
          { sysfs_path := n.path, modalias := n.modalias,
            modules := [normalize_module_name r], current_module := some r,
            pci_id := [] } ∈ get_misc_devices resolve loaded nodes) ∧
        (r ∉ loaded →
          { sysfs_path := n.path, modalias := n.modalias,
            modules := [normalize_module_name r], current_module := none,
            pci_id := [] } ∈ get_misc_devices resolve loaded nodes))) := by
  constructor
  · intro pciMap modMap pci_devs misc_devs dev hdev
    simp only [match_devices]
    apply List.mem_append_right
    exact List.mem_map.mpr ⟨dev, List.mem_append_left _ hdev, rfl⟩
  · intro resolve loaded nodes n hn hpci hx86
    constructor
    · intro c hc
      refine List.mem_filterMap.mpr ⟨n, hn, ?_⟩
      simp [get_misc_devices, hpci, hx86, hc]
    · intro r hcur hps
      constructor
      · intro hr
        refine List.mem_filterMap.mpr ⟨n, hn, ?_⟩
        simp [get_misc_devices, hpci, hx86, hcur, hps, hr]
      · intro hr
        refine List.mem_filterMap.mpr ⟨n, hn, ?_⟩
        simp [get_misc_devices, hpci, hx86, hcur, hps, hr]

/-- Witness for `misc_device_module_matching`: the misc-path record for a
bound device, a node that keeps its bound module, a hyphen-free
single-candidate inference that fires, and a hyphenated one that does
not. -/
theorem misc_device_module_matching_witness :
    (devNoCand, devNoCand.current_module,
        devNoCand.current_module.bind (fun mo => dget [] mo))
      ∈ (match_devices [] [] [] [devNoCand]).1 ∧
    { sysfs_path := nodeFoo.path, modalias := nodeFoo.modalias,
      modules := (pySet ((fun _ => []) nodeFoo.modalias)).map
        normalize_module_name,
      current_module := some "foo", pci_id := [] }
      ∈ get_misc_devices (fun _ => []) [] [nodeFoo] ∧
    { sysfs_path := nodeHyphen.path, modalias := nodeHyphen.modalias,
      modules := [normalize_module_name "foo"], current_module := some "foo",
      pci_id := [] } ∈ get_misc_devices (fun _ => ["foo"]) ["foo"] [nodeHyphen] ∧
    { sysfs_path := nodeHyphen.path, modalias := nodeHyphen.modalias,
      modules := [normalize_module_name "snd-foo"], current_module := none,
      pci_id := [] }
      ∈ get_misc_devices (fun _ => ["snd-foo"]) ["snd_foo"] [nodeHyphen] :=
  ⟨(misc_device_module_matching.1 [] [] [] [devNoCand] devNoCand (by decide)),
   ((misc_device_module_matching.2 (fun _ => []) [] [nodeFoo] nodeFoo
      (by decide) (by decide) (by decide)).1 "foo" rfl),
   ((misc_device_module_matching.2 (fun _ => ["foo"]) ["foo"] [nodeHyphen]
      nodeHyphen (by decide) (by decide) (by decide)).2 "foo" rfl
      (by decide)).1 (by decide),
   ((misc_device_module_matching.2 (fun _ => ["snd-foo"]) ["snd_foo"]
      [nodeHyphen] nodeHyphen (by decide) (by decide) (by decide)).2 "snd-foo"
      rfl (by decide)).2 (by decide)⟩

/-- C10: the claimed-modules set is exactly the union over all devices of
their candidate driver-name lists (a device's bound module is *not* added
on its own); consequently a loaded module absent from every candidate
list — even one bound to some device — enters the orphan-module pass; and
concretely, a run with one device bound to `foo` with no candidates and
`foo` loaded yields both a device-kind record and a module-kind record
for `foo`. -/
theorem claimed_modules :
    (∀ pciMap modMap (pci_devs misc_devs : List Device) (m : String),
      m ∈ (match_devices pciMap modMap pci_devs misc_devs).2 ↔
        ∃ d, d ∈ pci_devs ++ misc_devs ∧ m ∈ d.modules) ∧
    (∀ pciMap modMap (pci_devs misc_devs : List Device)
        (modules_enum : List String)
        (mod_map : List (String × CompatEntry)) (m : String),
      m ∈ modules_enum →
      (∀ d, d ∈ pci_devs ++ misc_devs → m ∉ d.modules) →
      (m, dget mod_map m) ∈ orphan_mod_entries modules_enum
        (match_devices pciMap modMap pci_devs misc_devs).2 mod_map) ∧
    (get_incompatible [entModFoo] (load_exc_db []) none ["foo"] [] []
        [nodeFoo] (fun _ => []) 9
      = some [{ obj_type := "device", obj := .device devFoo,
                status := "removed", msg := "Module foo is removed",
                ent := some entModFoo },
              { obj_type := "module", obj := .module "foo",
                status := "removed", msg := "", ent := some entModFoo }]) := by
  have h1 : ∀ pciMap modMap (pci_devs misc_devs : List Device) (m : String),
      m ∈ (match_devices pciMap modMap pci_devs misc_devs).2 ↔
        ∃ d, d ∈ pci_devs ++ misc_devs ∧ m ∈ d.modules := by
    intro pciMap modMap pci_devs misc_devs m
    simp only [match_devices]
    rw [List.mem_flatMap]
    constructor
    · rintro ⟨d, hd, hm⟩
      refine ⟨d, ?_, hm⟩
      rcases List.mem_append.mp hd with h | h
      · exact List.mem_append.mpr (Or.inl h)
      · rcases List.mem_append.mp h with h2 | h2
        · exact List.mem_append.mpr (Or.inr h2)
        · exact List.mem_append.mpr (Or.inl (List.mem_filter.mp h2).1)
    · rintro ⟨d, hd, hm⟩
      refine ⟨d, ?_, hm⟩
      rcases List.mem_append.mp hd with h | h
      · exact List.mem_append.mpr (Or.inl h)
      · exact List.mem_append.mpr (Or.inr (List.mem_append.mpr (Or.inl h)))
  refine ⟨h1, ?_, by decide⟩
  intro pciMap modMap pci_devs misc_devs modules_enum mod_map m hm hnone
  unfold orphan_mod_entries
  apply List.mem_map.mpr
  refine ⟨m, List.mem_filter.mpr ⟨hm, ?_⟩, rfl⟩
  rw [decide_eq_true_eq]
  intro hcl
  obtain ⟨d, hd, hdm⟩ :=
    (h1 pciMap modMap pci_devs misc_devs m).mp hcl
  exact hnone d hd hdm

/-- Witness for `claimed_modules`: a loaded module claimed by no device
enters the orphan pass of an empty inventory. -/
theorem claimed_modules_witness :
    ("x", dget ([] : List (String × CompatEntry)) "x")
      ∈ orphan_mod_entries ["x"] (match_devices [] [] [] []).2 [] :=
  claimed_modules.2.1 [] [] [] [] ["x"] [] "x" (by decide)
    (fun d hd _ => absurd hd (by simp))

/-- The lookup part of a run trace creates and releases no context
handle. -/
theorem kmod_lookup_trace_counts (lookups : List Bool) :
    (kmod_lookup_trace lookups).count KModEvent.ctx_new = 0 ∧
    (kmod_lookup_trace lookups).count KModEvent.ctx_release = 0 := by
  induction lookups with
  | nil => decide
  | cons ok rest ih =>
    cases ok <;>
      simp [kmod_lookup_trace, has_module_events, List.count_append,
        List.count_cons, List.count_nil, ih.1, ih.2]

/-- C9, counterexample: a run with the oracle enabled and no lookups
acquires the libkmod context handle once and releases it zero times —
not exactly once, as the claim requires of every exit path. -/
theorem kmod_release_cex :
    (kmod_run_trace []).count KModEvent.ctx_new = 1 ∧
    (kmod_run_trace []).count KModEvent.ctx_release = 0 ∧
    (kmod_run_trace []).count KModEvent.ctx_release ≠ 1 := by
  decide

/-- C9, amended: on every run with the oracle enabled — however many
lookups it performs and whether or not one of them fails mid-run — the
context handle is acquired exactly once and never explicitly released;
reclamation is left to process exit. -/
theorem kmod_handle_lifecycle (lookups : List Bool) :
    (kmod_run_trace lookups).count KModEvent.ctx_new = 1 ∧
    (kmod_run_trace lookups).count KModEvent.ctx_release = 0 := by
  have h := kmod_lookup_trace_counts lookups
  constructor <;>
    simp [kmod_run_trace, kmod_init_events, List.count_append,
      List.count_cons, List.count_nil, h.1, h.2]

/-- The misc-device collection depends on the loaded-module set only
through membership. -/
theorem get_misc_devices_congr (resolve : String → List String)
    (l1 l2 : List String) (h : ∀ m, m ∈ l1 ↔ m ∈ l2)
    (nodes : List SysfsNode) :
    get_misc_devices resolve l1 nodes = get_misc_devices resolve l2 nodes := by
  unfold get_misc_devices
  apply List.filterMap_congr
  intro n _
  simp only [h]

/-- Filtering out the members of a set depends on it only through
membership. -/
theorem filter_not_mem_congr (all l1 l2 : List String)
    (h : ∀ m, m ∈ l1 ↔ m ∈ l2) :
    all.filter (fun m => decide (m ∉ l1))
      = all.filter (fun m => decide (m ∉ l2)) :=
  List.filter_congr (fun m _ => by simp [h])

/-- Every record `get_incompatible_devices` emits is device-kind. -/
theorem device_check_obj_type (kmod : Option (String → Bool))
    (builtin_modules : List String) (target_version : Int)
    (x : Device × Option String × Option CompatEntry) :
    ∀ r ∈ (device_check kmod builtin_modules target_version x).1,
      r.obj_type = "device" := by
  intro r hr
  rcases x with ⟨dev, mo, ent⟩
  cases ent with
  | some e =>
    by_cases hst : get_status (some e) target_version = Status.ok
    · simp [device_check, hst] at hr
    · simp [device_check, hst] at hr
      rw [hr]
  | none =>
    cases hc : dev.current_module with
    | none => simp [device_check, hc] at hr
    | some cur =>
      by_cases hcond : dev.modules = [] ∧ cur ∉ builtin_modules
      · simp [device_check, hc, hcond] at hr
      · cases kmod with
        | none => simp [device_check, hc, hcond] at hr
        | some f =>
          cases hf : f dev.modalias with
          | true => simp [device_check, hc, hcond, hf] at hr
          | false =>
            simp [device_check, hc, hcond, hf] at hr
            rw [hr]

/-- Every record of the device pass is device-kind. -/
theorem get_incompatible_devices_obj_type
    (dev_entries : List (Device × Option String × Option CompatEntry))
    (kmod : Option (String → Bool)) (builtin_modules : List String)
    (target_version : Int) :
    ∀ r ∈ get_incompatible_devices dev_entries kmod builtin_modules
      target_version, r.obj_type = "device" := by
  intro r hr
  unfold get_incompatible_devices at hr
  rw [List.mem_flatMap] at hr
  obtain ⟨x, _, hrx⟩ := hr
  exact device_check_obj_type kmod builtin_modules target_version x r hrx

/-- Every record `get_incompatible_modules` emits is module-kind. -/
theorem get_incompatible_modules_obj_type
    (mod_entries : List (String × Option CompatEntry)) (target_version : Int) :
    ∀ r ∈ get_incompatible_modules mod_entries target_version,
      r.obj_type = "module" := by
  intro r hr
  unfold get_incompatible_modules at hr
  rw [List.mem_filterMap] at hr
  obtain ⟨me, _, hme⟩ := hr
  by_cases hst : get_status me.2 target_version = Status.ok
  · simp [hst] at hme
  · simp [hst] at hme
    rw [← hme]

/-- Filtering a device-part/module-part chain: the whole filtered chains
are permutations when the module parts are, the device-kind projections
coincide, and the module-kind projections are permutations. -/
theorem report_split_facts (p : Record → Bool) (D M1 M2 : List Record)
    (hD : ∀ r ∈ D, r.obj_type = "device")
    (hM1 : ∀ r ∈ M1, r.obj_type = "module")
    (hM2 : ∀ r ∈ M2, r.obj_type = "module")
    (hP : M1.Perm M2) :
    ((D ++ M1).filter p).Perm ((D ++ M2).filter p) ∧
    ((D ++ M1).filter p).filter (fun r => decide (r.obj_type = "device"))
      = ((D ++ M2).filter p).filter (fun r => decide (r.obj_type = "device")) ∧
    (((D ++ M1).filter p).filter (fun r => decide (r.obj_type = "module"))).Perm
      (((D ++ M2).filter p).filter
        (fun r => decide (r.obj_type = "module"))) := by
  have hDf : ∀ r ∈ D.filter p, r.obj_type = "device" :=
    fun r hr => hD r (List.mem_filter.mp hr).1
  have hM1f : ∀ r ∈ M1.filter p, r.obj_type = "module" :=
    fun r hr => hM1 r (List.mem_filter.mp hr).1
  have hM2f : ∀ r ∈ M2.filter p, r.obj_type = "module" :=
    fun r hr => hM2 r (List.mem_filter.mp hr).1
  refine ⟨?_, ?_, ?_⟩
  · rw [List.filter_append, List.filter_append]
    exact List.Perm.append_left _ (hP.filter p)
  · rw [List.filter_append, List.filter_append, List.filter_append,
      List.filter_append]
    have h1 : (D.filter p).filter (fun r => decide (r.obj_type = "device"))
        = D.filter p :=
      List.filter_eq_self.mpr (fun r hr => by simp [hDf r hr])
    have h2 : (M1.filter p).filter (fun r => decide (r.obj_type = "device"))
        = [] :=
      List.filter_eq_nil_iff.mpr (fun r hr => by simp [hM1f r hr])
    have h3 : (M2.filter p).filter (fun r => decide (r.obj_type = "device"))
        = [] :=
      List.filter_eq_nil_iff.mpr (fun r hr => by simp [hM2f r hr])
    rw [h1, h2, h3]
  · rw [List.filter_append, List.filter_append, List.filter_append,
      List.filter_append]
    have h4 : (D.filter p).filter (fun r => decide (r.obj_type = "module"))
        = [] :=
      List.filter_eq_nil_iff.mpr (fun r hr => by simp [hDf r hr])
    have h5 : (M1.filter p).filter (fun r => decide (r.obj_type = "module"))
        = M1.filter p :=
      List.filter_eq_self.mpr (fun r hr => by simp [hM1f r hr])
    have h6 : (M2.filter p).filter (fun r => decide (r.obj_type = "module"))
        = M2.filter p :=
      List.filter_eq_self.mpr (fun r hr => by simp [hM2f r hr])
    rw [h4, h5, h6]
    simpa using hP.filter p

/-- C8, counterexample: the record list is *not* a function of the
loaded-module set alone — two runs over the identical database, exception
list and inventory snapshot, whose loaded-module set `{a, b}` merely
enumerates in the two different orders CPython's salted string hashing
permits, produce the two orphan-module records in opposite orders. -/
theorem report_order_cex :
    valid_enum ["a", "b"] ["a", "b"] ∧ valid_enum ["a", "b"] ["b", "a"] ∧
    get_incompatible [entModA, entModB] (load_exc_db []) none ["a", "b"] []
        [] [] (fun _ => []) 9 = some [recModA, recModB] ∧
    get_incompatible [entModA, entModB] (load_exc_db []) none ["b", "a"] []
        [] [] (fun _ => []) 9 = some [recModB, recModA] ∧
    some [recModA, recModB] ≠ some [recModB, recModA] := by
  refine ⟨⟨by decide, fun m => Iff.rfl⟩,
    ⟨by decide, fun m => by simp [List.mem_cons, or_comm]⟩,
    by decide, by decide, by decide⟩

/-- C8, amended: for a fixed enumeration order of the loaded-module set
the report is a deterministic function of the inputs; across any two
enumeration orders of the same set the two reports are permutations of
each other, their device-kind records are identical and identically
ordered, and their module-kind (orphan) records are permutations of each
other — only the relative order of the orphan-module records follows the
enumeration order, which Python does not determine from the snapshot. -/
theorem report_order_perm (compat_db : List CompatEntry)
    (exc_pred : String → Bool) (kmod : Option (String → Bool))
    (contents enum1 enum2 all_modules : List String)
    (pci_devs : List Device) (misc_nodes : List SysfsNode)
    (resolve : String → List String) (target_version : Int)
    (out1 out2 : List Record)
    (h1 : valid_enum contents enum1) (h2 : valid_enum contents enum2)
    (ho1 : get_incompatible compat_db exc_pred kmod enum1 all_modules
      pci_devs misc_nodes resolve target_version = some out1)
    (ho2 : get_incompatible compat_db exc_pred kmod enum2 all_modules
      pci_devs misc_nodes resolve target_version = some out2) :
    out1.Perm out2 ∧
    out1.filter (fun r => decide (r.obj_type = "device"))
      = out2.filter (fun r => decide (r.obj_type = "device")) ∧
    (out1.filter (fun r => decide (r.obj_type = "module"))).Perm
      (out2.filter (fun r => decide (r.obj_type = "module"))) := by
  have hmm : ∀ m, m ∈ enum1 ↔ m ∈ enum2 :=
    fun m => (h1.2 m).trans (h2.2 m).symm
  have hperm : enum1.Perm enum2 :=
    (List.perm_ext_iff_of_nodup h1.1 h2.1).mpr hmm
  unfold get_incompatible at ho1 ho2
  obtain ⟨ur1, hru1, hfil1⟩ := Option.map_eq_some'.mp ho1
  obtain ⟨ur2, hru2, hfil2⟩ := Option.map_eq_some'.mp ho2
  unfold report_unfiltered at hru1 hru2
  obtain ⟨pm1, hpm1, hbody1⟩ := Option.map_eq_some'.mp hru1
  obtain ⟨pm2, hpm2, hbody2⟩ := Option.map_eq_some'.mp hru2
  have hpmeq : pm1 = pm2 := by
    rw [hpm1] at hpm2
    exact Option.some_injective _ hpm2
  subst hpmeq
  subst hfil1
  subst hfil2
  have hmisc : get_misc_devices resolve enum1 misc_nodes
      = get_misc_devices resolve enum2 misc_nodes :=
    get_misc_devices_congr resolve enum1 enum2 hmm misc_nodes
  have hbuiltin : all_modules.filter (fun m => decide (m ∉ enum1))
      = all_modules.filter (fun m => decide (m ∉ enum2)) :=
    filter_not_mem_congr all_modules enum1 enum2 hmm
  have hu1 : ur1
      = get_incompatible_devices
          (match_devices pm1 (get_module_entry_map compat_db) pci_devs
            (get_misc_devices resolve enum1 misc_nodes)).1 kmod
          (all_modules.filter (fun m => decide (m ∉ enum1))) target_version
        ++ get_incompatible_modules
            (orphan_mod_entries enum1
              (match_devices pm1 (get_module_entry_map compat_db) pci_devs
                (get_misc_devices resolve enum1 misc_nodes)).2
              (get_module_entry_map compat_db)) target_version :=
    hbody1.symm.trans rfl
  have hu2 : ur2
      = get_incompatible_devices
          (match_devices pm1 (get_module_entry_map compat_db) pci_devs
            (get_misc_devices resolve enum2 misc_nodes)).1 kmod
          (all_modules.filter (fun m => decide (m ∉ enum2))) target_version
        ++ get_incompatible_modules
            (orphan_mod_entries enum2
              (match_devices pm1 (get_module_entry_map compat_db) pci_devs
                (get_misc_devices resolve enum2 misc_nodes)).2
              (get_module_entry_map compat_db)) target_version :=
    hbody2.symm.trans rfl
  rw [hmisc, hbuiltin] at hu1
  have hmodperm :
      (get_incompatible_modules
        (orphan_mod_entries enum1
          (match_devices pm1 (get_module_entry_map compat_db) pci_devs
            (get_misc_devices resolve enum2 misc_nodes)).2
          (get_module_entry_map compat_db)) target_version).Perm
      (get_incompatible_modules
        (orphan_mod_entries enum2
          (match_devices pm1 (get_module_entry_map compat_db) pci_devs
            (get_misc_devices resolve enum2 misc_nodes)).2
          (get_module_entry_map compat_db)) target_version) := by
    unfold get_incompatible_modules
    apply List.Perm.filterMap
    unfold orphan_mod_entries
    exact (hperm.filter _).map _
  rw [hu1, hu2]
  exact report_split_facts (check_exc exc_pred) _ _ _
    (get_incompatible_devices_obj_type _ _ _ _)
    (get_incompatible_modules_obj_type _ _)
    (get_incompatible_modules_obj_type _ _) hmodperm

/-- Witness for `report_order_perm`: two runs over the singleton set
`{a}` in its only enumeration order produce permuted whole reports,
identical device-kind projections and permuted module-kind
projections. -/
theorem report_order_perm_witness :
    List.Perm [recModA] [recModA] ∧
    [recModA].filter (fun r => decide (r.obj_type = "device"))
      = [recModA].filter (fun r => decide (r.obj_type = "device")) ∧
    ([recModA].filter (fun r => decide (r.obj_type = "module"))).Perm
      ([recModA].filter (fun r => decide (r.obj_type = "module"))) :=
  report_order_perm [entModA] (load_exc_db []) none ["a"] ["a"] ["a"] [] []
    [] (fun _ => []) 9 [recModA] [recModA]
    ⟨by decide, fun m => Iff.rfl⟩ ⟨by decide, fun m => Iff.rfl⟩
    (by decide) (by decide)

end HwCompat
